import Mathlib

/-!
# Verification of the nano-banana GIF generator core

Shallow embedding of the Frame Sequence Planner, Animation Intent Classifier,
Frame Materializer, Sequence Assembler and Settings Resolver of the
nano-banana-gif-generator repository, together with theorems settling the
spec claims about them.

Numbers are embedded as `Nat` / `Int` / `ℚ` (the JS arithmetic in scope is
exact on these inputs), strings as Lean `String`, JS array access as an
`Option`-valued lookup (`undefined` = `none`), and template-literal
interpolation of a possibly-undefined value via `jsStr`.
-/

/-- JS `Math.round` on a rational: round half up, `⌊q + 1/2⌋`
(written with the executable `Rat.floor`). -/
def jsRound (q : ℚ) : ℤ := Rat.floor (q + 1/2)

/-- JS `Math.floor` on a rational, written with the executable `Rat.floor`. -/
def jsFloor (q : ℚ) : ℤ := Rat.floor q

/-- JS template-literal rendering of a possibly-`undefined` string value:
`${undefined}` renders as the text "undefined". -/
def jsStr : Option String → String
  | some s => s
  | none => "undefined"

/-- JS array subscript with an integer index: out-of-bounds (or negative)
access yields `undefined`, modelled as `none`. -/
def jsGet (l : List String) (i : ℤ) : Option String :=
  if 0 ≤ i then l[i.toNat]? else none

/-- `listContains s sub` is true iff `sub` occurs as a contiguous
subsequence of `s`. -/
def listContains (s sub : List Char) : Bool :=
  sub.isPrefixOf s ||
    match s with
    | [] => false
    | _ :: rest => listContains rest sub

/-- JS `String.prototype.includes`: `containsStr s sub` is true iff `sub`
occurs as a contiguous substring of `s`. -/
def containsStr (s sub : String) : Bool := listContains s.data sub.data

/-- JS `String.prototype.toLowerCase` (character-wise lowering; the
keywords in scope are ASCII). -/
def jsToLower (s : String) : String := ⟨s.data.map Char.toLower⟩

namespace AnimationUtils

/-- The closed set of motion categories of `CONFIG.animationTypes`
(src/src/core/config.js). -/
inductive AnimationType
  | walking
  | flying
  | dancing
  | transformation
  | flowing
  | rotating
  | general
deriving DecidableEq, Repr

open AnimationType

/-- `AnimationUtils.detectAnimationType` (src/src/utils/animationUtils.js,
lines 15-33): lowercase the prompt, then a fixed chain of case-insensitive
substring tests, first match wins, falling through to `general`. -/
def detectAnimationType (prompt : String) : AnimationType :=
  let lowerPrompt := jsToLower prompt
  if containsStr lowerPrompt "walk" || containsStr lowerPrompt "running" ||
      containsStr lowerPrompt "moving" then walking
  else if containsStr lowerPrompt "fly" || containsStr lowerPrompt "flying" ||
      containsStr lowerPrompt "soar" then flying
  else if containsStr lowerPrompt "dance" || containsStr lowerPrompt "dancing" then dancing
  else if containsStr lowerPrompt "grow" || containsStr lowerPrompt "bloom" ||
      containsStr lowerPrompt "transform" then transformation
  else if containsStr lowerPrompt "wave" || containsStr lowerPrompt "ocean" ||
      containsStr lowerPrompt "water" then flowing
  else if containsStr lowerPrompt "spin" || containsStr lowerPrompt "rotate" ||
      containsStr lowerPrompt "turn" then rotating
  else general

/-- `AnimationUtils.createFramePrompt` (src/src/utils/animationUtils.js,
lines 44-86): per-category frame prompt synthesis. The four-element cyclic
tables are indexed modulo their length; `progress` is the caller-supplied
progress fraction. -/
def createFramePrompt (basePrompt : String) (animationType : AnimationType)
    (frameIndex totalFrames : ℕ) (progress : ℚ) : String :=
  let progressPercent := jsRound (progress * 100)
  match animationType with
  | walking =>
      let walkCycle := ["left foot forward", "mid-stride", "right foot forward", "mid-stride"]
      let walkPhase := jsStr (jsGet walkCycle (frameIndex % walkCycle.length))
      basePrompt ++ ", " ++ walkPhase ++ ", step " ++ toString (frameIndex + 1) ++
        " of walking cycle, consistent character and background"
  | flying =>
      let flyPositions := ["wings up", "wings mid-flap", "wings down", "wings mid-flap"]
      let flyPhase := jsStr (jsGet flyPositions (frameIndex % flyPositions.length))
      basePrompt ++ ", " ++ flyPhase ++ ", flight position " ++ toString (frameIndex + 1) ++
        ", same character and environment"
  | dancing =>
      let dancePositions := ["arms up", "arms to side", "arms down", "arms crossed"]
      let dancePhase := jsStr (jsGet dancePositions (frameIndex % dancePositions.length))
      basePrompt ++ ", " ++ dancePhase ++ ", dance pose " ++ toString (frameIndex + 1) ++
        ", same dancer and setting"
  | transformation =>
      if frameIndex = 0 then
        basePrompt ++ ", initial state, beginning of transformation"
      else if frameIndex = totalFrames - 1 then
        basePrompt ++ ", final state, transformation complete"
      else
        basePrompt ++ ", " ++ toString progressPercent ++
          "% transformed, mid-transformation stage " ++ toString frameIndex
  | flowing =>
      let waveHeights := ["low wave", "rising wave", "high wave", "falling wave"]
      let wavePhase := jsStr (jsGet waveHeights (frameIndex % waveHeights.length))
      basePrompt ++ ", " ++ wavePhase ++ ", wave motion frame " ++ toString (frameIndex + 1) ++
        ", consistent water and scene"
  | rotating =>
      let rotationAngle : ℚ := (frameIndex : ℚ) * 360 / (totalFrames : ℚ)
      basePrompt ++ ", rotated " ++ toString (jsRound rotationAngle) ++
        " degrees, rotation frame " ++ toString (frameIndex + 1) ++ ", same object and background"
  | general =>
      let positions := ["center position", "slightly left", "slightly right", "back to center"]
      let position := jsStr (jsGet positions (frameIndex % positions.length))
      basePrompt ++ ", " ++ position ++ ", frame " ++ toString (frameIndex + 1) ++ " of " ++
        toString totalFrames ++ ", consistent scene and lighting"

/-- `AnimationUtils.generateFramePrompts` (src/src/utils/animationUtils.js,
lines 94-106): classify the base prompt once, then emit one frame prompt per
index `0..frameCount-1` in order, with `progress = i / (frameCount - 1)`. -/
def generateFramePrompts (basePrompt : String) (frameCount : ℕ) : List String :=
  let animationType := detectAnimationType basePrompt
  (List.range frameCount).map fun i =>
    createFramePrompt basePrompt animationType i frameCount
      ((i : ℚ) / ((frameCount : ℚ) - 1))

/-- Animation parameters as passed to `validateAnimationParams`: each field
may be absent (`none`). -/
structure AnimationParams where
  prompt : Option String
  frames : Option ℤ
  delay : Option ℤ

/-- JS truthiness of a possibly-absent number: `undefined` and `0` are falsy. -/
def numTruthy : Option ℤ → Bool
  | none => false
  | some v => v != 0

/-- JS truthiness of a possibly-absent string: `undefined` and `""` are falsy. -/
def strTruthy : Option String → Bool
  | none => false
  | some s => s != ""

/-- Result object of `validateAnimationParams`. -/
structure ValidationResult where
  isValid : Bool
  errors : List String
deriving DecidableEq, Repr

/-- `AnimationUtils.validateAnimationParams` (src/src/utils/animationUtils.js,
lines 123-142). Note the truthiness guards `params.frames && ...` and
`params.delay && ...` of the source: the range check only runs when the field
is present AND nonzero. -/
def validateAnimationParams (params : AnimationParams) : ValidationResult :=
  let errors : List String := []
  let errors := if strTruthy params.prompt then errors
    else errors ++ ["Prompt is required and must be a string"]
  let errors := if numTruthy params.frames &&
      ((params.frames.getD 0) < 2 || (params.frames.getD 0) > 20) then
    errors ++ ["Frame count must be between 2 and 20"] else errors
  let errors := if numTruthy params.delay &&
      ((params.delay.getD 0) < 100 || (params.delay.getD 0) > 2000) then
    errors ++ ["Delay must be between 100ms and 2000ms"] else errors
  { isValid := errors.isEmpty, errors := errors }

/-- The fixed ordered category→keyword table of the classifier, in the
source's check order (src/src/utils/animationUtils.js, lines 18-29). -/
def keywordTable : List (List String × AnimationType) :=
  [(["walk", "running", "moving"], .walking),
   (["fly", "flying", "soar"], .flying),
   (["dance", "dancing"], .dancing),
   (["grow", "bloom", "transform"], .transformation),
   (["wave", "ocean", "water"], .flowing),
   (["spin", "rotate", "turn"], .rotating)]

/-- First matching entry of an ordered keyword table, falling through to
`general`: the spec's description of the classifier, stated as a fold over
the table for comparison with the source's `detectAnimationType`. -/
def firstMatch (lowerPrompt : String) : List (List String × AnimationType) → AnimationType
  | [] => .general
  | (kws, cat) :: rest =>
      if kws.any (fun kw => containsStr lowerPrompt kw) then cat
      else firstMatch lowerPrompt rest

/-- Specification-style classifier: first matching entry of the fixed ordered
keyword table under case-insensitive substring matching, `general` when no
keyword matches. -/
def classifySpec (prompt : String) : AnimationType :=
  firstMatch (jsToLower prompt) keywordTable

end AnimationUtils

namespace SequenceGenerator

/-- Progress value computed by `SequenceGenerator.createFramePrompt`
(src/unnamed/part_004, line 76): `(frameIndex / (totalFrames - 1)) * 100`. -/
def frameProgress (frameIndex totalFrames : ℕ) : ℚ :=
  (frameIndex : ℚ) / ((totalFrames : ℚ) - 1) * 100

/-- Phase-table index computed by each motion-prompt helper of
src/unnamed/part_004: `Math.floor((progress / 100) * phases.length)`. -/
def motionPhaseIndex (progress : ℚ) (len : ℕ) : ℤ :=
  jsFloor (progress / 100 * (len : ℚ))

/-- Phase table of `getWalkingMotionPrompt` (src/unnamed/part_004, lines 111-117). -/
def walkPhases : List String :=
  ["left foot forward, right foot back",
   "mid-step, both feet off ground",
   "right foot forward, left foot back",
   "mid-step, both feet off ground",
   "left foot forward, right foot back"]

/-- `SequenceGenerator.getWalkingMotionPrompt` (src/unnamed/part_004, lines 110-120). -/
def getWalkingMotionPrompt (progress : ℚ) : String :=
  "walking motion: " ++ jsStr (jsGet walkPhases (motionPhaseIndex progress walkPhases.length)) ++
    ", natural gait, dynamic pose"

/-- Phase table of `getFlyingMotionPrompt` (src/unnamed/part_004, lines 126-132). -/
def flyPhases : List String :=
  ["wings up, ascending motion",
   "wings mid-beat, soaring",
   "wings down, gliding",
   "wings mid-beat, soaring",
   "wings up, ascending motion"]

/-- `SequenceGenerator.getFlyingMotionPrompt` (src/unnamed/part_004, lines 125-135). -/
def getFlyingMotionPrompt (progress : ℚ) : String :=
  "flying motion: " ++ jsStr (jsGet flyPhases (motionPhaseIndex progress flyPhases.length)) ++
    ", graceful flight, dynamic wing movement"

/-- Phase table of `getDancingMotionPrompt` (src/unnamed/part_004, lines 141-147). -/
def dancePhases : List String :=
  ["arms up, left foot forward",
   "twisting motion, arms flowing",
   "arms down, right foot forward",
   "spinning motion, arms flowing",
   "arms up, left foot forward"]

/-- `SequenceGenerator.getDancingMotionPrompt` (src/unnamed/part_004, lines 140-150). -/
def getDancingMotionPrompt (progress : ℚ) : String :=
  "dancing motion: " ++ jsStr (jsGet dancePhases (motionPhaseIndex progress dancePhases.length)) ++
    ", rhythmic movement, expressive pose"

/-- Phase table of `getTransformationPrompt` (src/unnamed/part_004, lines 156-162). -/
def transformPhases : List String :=
  ["beginning transformation, subtle changes",
   "mid-transformation, morphing shape",
   "peak transformation, dramatic change",
   "mid-transformation, morphing shape",
   "completing transformation, final form"]

/-- `SequenceGenerator.getTransformationPrompt` (src/unnamed/part_004, lines 155-165). -/
def getTransformationPrompt (progress : ℚ) : String :=
  "transformation: " ++
    jsStr (jsGet transformPhases (motionPhaseIndex progress transformPhases.length)) ++
    ", magical morphing, fluid change"

/-- `SequenceGenerator.getRotatingPrompt` (src/unnamed/part_004, lines 170-173):
angle is `(progress / 100) * 360`, rounded. -/
def getRotatingPrompt (progress : ℚ) : String :=
  "rotating motion: " ++ toString (jsRound (progress / 100 * 360)) ++
    " degrees, spinning movement, dynamic rotation"

/-- Phase table of `getFlowingPrompt` (src/unnamed/part_004, lines 179-185). -/
def flowPhases : List String :=
  ["gentle wave motion, calm flow",
   "building wave, increasing energy",
   "peak wave, maximum flow",
   "building wave, increasing energy",
   "gentle wave motion, calm flow"]

/-- `SequenceGenerator.getFlowingPrompt` (src/unnamed/part_004, lines 178-188). -/
def getFlowingPrompt (progress : ℚ) : String :=
  "flowing motion: " ++ jsStr (jsGet flowPhases (motionPhaseIndex progress flowPhases.length)) ++
    ", fluid movement, natural flow"

/-- Phase table of `getGeneralMotionPrompt` (src/unnamed/part_004, lines 194-200). -/
def generalPhases : List String :=
  ["starting position, initial movement",
   "building momentum, mid-motion",
   "peak action, maximum movement",
   "building momentum, mid-motion",
   "completing action, final position"]

/-- `SequenceGenerator.getGeneralMotionPrompt` (src/unnamed/part_004, lines 193-203). -/
def getGeneralMotionPrompt (progress : ℚ) : String :=
  "motion: " ++ jsStr (jsGet generalPhases (motionPhaseIndex progress generalPhases.length)) ++
    ", dynamic movement, natural progression"

/-- Motion-prompt dispatch of `SequenceGenerator.createFramePrompt`
(src/unnamed/part_004, lines 81-102): switch on the lowercased animation
type, defaulting to the general motion prompt. -/
def motionPromptFor (animationType : String) (progress : ℚ) : String :=
  match jsToLower animationType with
  | "walking" => getWalkingMotionPrompt progress
  | "flying" => getFlyingMotionPrompt progress
  | "dancing" => getDancingMotionPrompt progress
  | "transformation" => getTransformationPrompt progress
  | "rotating" => getRotatingPrompt progress
  | "flowing" => getFlowingPrompt progress
  | _ => getGeneralMotionPrompt progress

/-- `SequenceGenerator.createFramePrompt` (src/unnamed/part_004, lines 75-105):
dispatch on the lowercased animation type, then concatenate base prompt, motion
descriptor, the frame-position marker "frame {i+1} of {N}" and the fixed
consistency suffix. -/
def createFramePrompt (basePrompt : String) (frameIndex totalFrames : ℕ)
    (animationType : String) : String :=
  let progress := frameProgress frameIndex totalFrames
  let frameNumber := frameIndex + 1
  let motionPrompt := motionPromptFor animationType progress
  basePrompt ++ ", " ++ motionPrompt ++ ", frame " ++ toString frameNumber ++ " of " ++
    toString totalFrames ++
    ", consistent character and background, smooth animation sequence, cinematic quality"

/-- Loop body of `SequenceGenerator.generateSequence` (src/unnamed/part_004,
lines 38-61), instrumented with the trace of attempted frame indices. The
backend call for index `i` either produces a stored frame path (`Except.ok`)
or fails (`Except.error`); on failure the source logs and re-throws, ending
the loop. Returns the attempted indices together with the overall outcome. -/
def generateSequenceAux (backend : ℕ → Except String String) :
    ℕ → ℕ → List String → List ℕ → List ℕ × Except String (List String)
  | 0, _, framePaths, attempted => (attempted, .ok framePaths)
  | remaining + 1, i, framePaths, attempted =>
    match backend i with
    | .ok p => generateSequenceAux backend remaining (i + 1) (framePaths ++ [p]) (attempted ++ [i])
    | .error e => (attempted ++ [i], .error e)

/-- `SequenceGenerator.generateSequence` (src/unnamed/part_004, lines 25-65):
materialize frames 0, 1, ... in order, aborting with the thrown error as soon
as one frame's backend call fails. The first component is the trace of
attempted frame indices; the second is the returned frame-path list or the
propagated error. -/
def generateSequence (backend : ℕ → Except String String) (frameCount : ℕ) :
    List ℕ × Except String (List String) :=
  generateSequenceAux backend frameCount 0 [] []

end SequenceGenerator

namespace CanvasGifAssembler

/-- Result of a `createGif` run: the output path the GIF buffer was written
to, and the frames appended to the encoder, in input order. -/
structure GifArtifact where
  path : String
  frames : List String
deriving DecidableEq, Repr

/-- Frame loop of `CanvasGifAssembler.createGif`
(src/src/core/canvasGifAssembler.js, lines 49-87): paths whose file does not
exist are skipped with a warning, paths whose processing (decode/resize)
fails are skipped by the inner catch, and every successfully processed frame
is appended to the encoder in input order. `fsExists` models
`fs.existsSync`; `process` models the sharp/canvas pipeline, `none` meaning
it threw. -/
def framesLoop (fsExists : String → Bool) (process : String → Option String) :
    List String → List String
  | [] => []
  | p :: rest =>
    if fsExists p then
      match process p with
      | some f => f :: framesLoop fsExists process rest
      | none => framesLoop fsExists process rest
    else framesLoop fsExists process rest

/-- `CanvasGifAssembler.createGif` (src/src/core/canvasGifAssembler.js,
lines 24-105): run the frame loop, finish the encoder, and write the buffer
to `outputPath`. There is no empty-input check anywhere in the function, and
the encoder/write steps are modelled as total (per-frame failures were
already swallowed by the inner catch), so the function returns `.ok` with
the written artifact for every input list. -/
def createGif (fsExists : String → Bool) (process : String → Option String)
    (imagePaths : List String) (outputPath : String) : Except String GifArtifact :=
  .ok { path := outputPath, frames := framesLoop fsExists process imagePaths }

end CanvasGifAssembler

/-- Encoding settings derived from the frame count. -/
structure OptimalSettings where
  delay : ℕ
  quality : ℕ
deriving DecidableEq, Repr

/-- `getOptimalSettings` — identical bodies in `GifAssembler.getOptimalSettings`
(src/unnamed/part_003, lines 162-172) and `GifGenerator.getOptimalSettings`
(src/unnamed/part_004 companion file, lines 392-402): a pure bucket lookup on
the frame count. -/
def getOptimalSettings (frameCount : ℕ) : OptimalSettings :=
  if frameCount ≤ 3 then { delay := 800, quality := 90 }
  else if frameCount ≤ 5 then { delay := 600, quality := 85 }
  else if frameCount ≤ 8 then { delay := 400, quality := 80 }
  else { delay := 300, quality := 75 }

theorem jsRound_eq (q : ℚ) : jsRound q = ⌊q + 1/2⌋ := by
  rw [jsRound, Rat.floor_def]
  exact Rat.floor_def' _

theorem jsFloor_eq (q : ℚ) : jsFloor q = ⌊q⌋ := by
  rw [jsFloor, Rat.floor_def]
  exact Rat.floor_def' _

theorem strData_append (a b : String) : (a ++ b).data = a.data ++ b.data := rfl

theorem listContains_of_append (pre sub post : List Char) :
    listContains (pre ++ sub ++ post) sub = true := by
  induction pre with
  | nil =>
      rw [listContains.eq_def]
      have h : sub.isPrefixOf (sub ++ post) = true :=
        List.isPrefixOf_iff_prefix.mpr (List.prefix_append sub post)
      simp only [List.nil_append] at h ⊢
      rw [h, Bool.true_or]
  | cons c pre ih =>
      rw [listContains.eq_def]
      simp only [List.cons_append]
      rw [ih, Bool.or_true]

theorem containsStr_of_data_decomp (s sub : String) (pre post : List Char)
    (h : s.data = pre ++ sub.data ++ post) : containsStr s sub = true := by
  rw [containsStr, h]
  exact listContains_of_append _ _ _

namespace AnimationUtils

theorem firstMatch_of_no_match (lowerPrompt : String)
    (t : List (List String × AnimationType))
    (h : ∀ e ∈ t, ∀ kw ∈ e.1, containsStr lowerPrompt kw = false) :
    firstMatch lowerPrompt t = .general := by
  induction t with
  | nil => rfl
  | cons e rest ih =>
      obtain ⟨kws, cat⟩ := e
      rw [firstMatch]
      have hc : (kws.any fun kw => containsStr lowerPrompt kw) = false := by
        rw [List.any_eq_false]
        intro kw hkw
        simp [h (kws, cat) (by simp) kw hkw]
      rw [hc]
      simp only [Bool.false_eq_true, if_false]
      exact ih fun e he => h e (by simp [he])

end AnimationUtils

namespace SequenceGenerator

theorem generateSequenceAux_fail (backend : ℕ → Except String String) (N k : ℕ) (e : String)
    (hkN : k < N) (hk : backend k = .error e)
    (hok : ∀ i, i < k → ∃ p, backend i = .ok p) :
    ∀ d j framePaths attempted, j ≤ k → k - j = d →
      generateSequenceAux backend (N - j) j framePaths attempted =
        (attempted ++ List.range' j (k + 1 - j), .error e) := by
  intro d
  induction d with
  | zero =>
      intro j framePaths attempted hjk hd
      have hjeq : j = k := by omega
      have hkj : backend j = .error e := by rw [hjeq]; exact hk
      have hfuel : N - j = (N - j - 1) + 1 := by omega
      rw [hfuel, generateSequenceAux, hkj]
      show (attempted ++ [j], Except.error e) =
        (attempted ++ List.range' j (k + 1 - j), Except.error e)
      have h1 : k + 1 - j = 1 := by omega
      rw [h1]
      rw [hjeq]
      rfl
  | succ d ih =>
      intro j framePaths attempted hjk hd
      have hjlt : j < k := by omega
      obtain ⟨p, hp⟩ := hok j hjlt
      have hfuel : N - j = (N - (j + 1)) + 1 := by omega
      rw [hfuel, generateSequenceAux, hp]
      show generateSequenceAux backend (N - (j + 1)) (j + 1) (framePaths ++ [p])
          (attempted ++ [j]) =
        (attempted ++ List.range' j (k + 1 - j), Except.error e)
      rw [ih (j + 1) (framePaths ++ [p]) (attempted ++ [j]) (by omega) (by omega)]
      have hr : k + 1 - j = (k - j) + 1 := by omega
      rw [hr, List.range'_succ, List.append_assoc]
      have : k + 1 - (j + 1) = k - j := by omega
      rw [this]
      rfl

end SequenceGenerator

/-- C1: the claim that the Materializer attempts every index 0..N-1 even when
a frame fails is FALSE of the code: `SequenceGenerator.generateSequence`
re-throws the error of a failed frame, so with a backend failing at index 1
of 3 only indices 0 and 1 are attempted, not 0..2. -/
theorem generateSequence_counterexample :
    (SequenceGenerator.generateSequence
        (fun i => if i = 1 then .error "boom" else .ok ("img" ++ toString i)) 3).1 ≠
      List.range 3 := by decide

/-- C1 (amended): a failure at frame index k — the first failing index —
aborts the whole run: the attempted indices are exactly 0..k, the error is
propagated as the result, and frames k+1..N-1 are never attempted. -/
theorem generateSequence_aborts_at_first_failure
    (backend : ℕ → Except String String) (N k : ℕ) (e : String)
    (hkN : k < N) (hk : backend k = .error e)
    (hok : ∀ i, i < k → ∃ p, backend i = .ok p) :
    (SequenceGenerator.generateSequence backend N).1 = List.range (k + 1) ∧
    (SequenceGenerator.generateSequence backend N).2 = .error e := by
  have h0 := SequenceGenerator.generateSequenceAux_fail backend N k e hkN hk hok k 0 [] []
    (by omega) (by omega)
  rw [Nat.sub_zero] at h0
  rw [SequenceGenerator.generateSequence, h0]
  constructor
  · rw [List.nil_append, List.range_eq_range']
    rfl
  · rfl

/-- Witness for C1 (amended) at a concrete backend failing at index 1 of 3. -/
theorem generateSequence_aborts_at_first_failure_witness :
    (SequenceGenerator.generateSequence
        (fun i => if i = 1 then .error "boom" else .ok ("img" ++ toString i)) 3).1 =
      List.range 2 ∧
    (SequenceGenerator.generateSequence
        (fun i => if i = 1 then .error "boom" else .ok ("img" ++ toString i)) 3).2 =
      .error "boom" :=
  generateSequence_aborts_at_first_failure _ 3 1 "boom" (by decide) rfl
    (fun i hi => ⟨"img" ++ toString i, by
      have h0 : i = 0 := by omega
      subst h0
      rfl⟩)

/-- C2: the claim that invoking the assembler on an empty sequence fails with
EmptySequenceError is FALSE of the code: `CanvasGifAssembler.createGif` has no
empty-input check, so on `[]` it succeeds and writes a zero-frame output
artifact rather than failing. -/
theorem createGif_empty_counterexample :
    CanvasGifAssembler.createGif (fun _ => true) (fun p => some p) [] "out.gif" =
      .ok ⟨"out.gif", []⟩ := rfl

/-- C2 (amended): `createGif` performs no empty-sequence check: on an empty
input it succeeds, writing a zero-frame artifact; on a single-frame input
whose file exists and whose processing succeeds it produces a valid one-frame
artifact. -/
theorem createGif_no_empty_check (fsExists : String → Bool)
    (process : String → Option String) (out : String) :
    CanvasGifAssembler.createGif fsExists process [] out = .ok ⟨out, []⟩ ∧
    ∀ p f, fsExists p = true → process p = some f →
      CanvasGifAssembler.createGif fsExists process [p] out = .ok ⟨out, [f]⟩ := by
  constructor
  · rfl
  · intro p f hp hf
    rw [CanvasGifAssembler.createGif]
    rw [CanvasGifAssembler.framesLoop, hp, if_pos rfl, hf]
    rfl

/-- Witness for C2 (amended) at concrete inputs. -/
theorem createGif_no_empty_check_witness :
    CanvasGifAssembler.createGif (fun _ => true) (fun p => some (p ++ "!")) [] "o.gif" =
      .ok ⟨"o.gif", []⟩ ∧
    CanvasGifAssembler.createGif (fun _ => true) (fun p => some (p ++ "!")) ["f0"] "o.gif" =
      .ok ⟨"o.gif", ["f0!"]⟩ :=
  ⟨(createGif_no_empty_check (fun _ => true) (fun p => some (p ++ "!")) "o.gif").1,
   (createGif_no_empty_check (fun _ => true) (fun p => some (p ++ "!")) "o.gif").2
     "f0" "f0!" rfl rfl⟩

/-- C3: the claim that EVERY planner prompt for EVERY motion category contains
the literal frame-position substring is FALSE of
`AnimationUtils.createFramePrompt`: the walking-category prompt of frame 0 of
a 2-frame plan for "a cat walking" contains no "frame 1 of 2". -/
theorem frameMarker_counterexample :
    containsStr ((AnimationUtils.generateFramePrompts "a cat walking" 2).getD 0 "")
      "frame 1 of 2" = false := by decide

/-- C3 (amended): `SequenceGenerator.createFramePrompt` appends the
frame-position marker "frame {i+1} of {N}" and the consistency suffix
"consistent character and background" to every prompt of every category,
while in `AnimationUtils.createFramePrompt` the frame-position marker is
present in the general-category prompts (the other categories emit different
per-category markers). -/
theorem frameMarker_in_prompts (b aty : String) (i N : ℕ) (p : ℚ) :
    containsStr (SequenceGenerator.createFramePrompt b i N aty)
      ("frame " ++ toString (i + 1) ++ " of " ++ toString N) = true ∧
    containsStr (SequenceGenerator.createFramePrompt b i N aty)
      "consistent character and background" = true ∧
    containsStr (AnimationUtils.createFramePrompt b .general i N p)
      ("frame " ++ toString (i + 1) ++ " of " ++ toString N) = true := by
  refine ⟨?_, ?_, ?_⟩
  · apply containsStr_of_data_decomp _ _
      ((b ++ ", " ++
        SequenceGenerator.motionPromptFor aty (SequenceGenerator.frameProgress i N) ++
        ", ").data)
      ((", consistent character and background, smooth animation sequence, cinematic quality" :
        String).data)
    simp only [SequenceGenerator.createFramePrompt, strData_append, List.append_assoc]
    rfl
  · apply containsStr_of_data_decomp _ _
      ((b ++ ", " ++
        SequenceGenerator.motionPromptFor aty (SequenceGenerator.frameProgress i N) ++
        ", frame " ++ toString (i + 1) ++ " of " ++ toString N ++ ", ").data)
      ((", smooth animation sequence, cinematic quality" : String).data)
    simp only [SequenceGenerator.createFramePrompt, strData_append, List.append_assoc]
    rfl
  · apply containsStr_of_data_decomp _ _
      ((b ++ ", " ++
        jsStr (jsGet ["center position", "slightly left", "slightly right", "back to center"]
          (i % 4)) ++ ", ").data)
      ((", consistent scene and lighting" : String).data)
    simp only [AnimationUtils.createFramePrompt, strData_append, List.append_assoc]
    rfl

/-- C4: the Animation Intent Classifier is total and equals the first-match
semantics over the fixed ordered keyword table under case-insensitive
substring matching; when no keyword matches it returns the general category. -/
theorem detectAnimationType_first_match_total (p : String) :
    AnimationUtils.detectAnimationType p = AnimationUtils.classifySpec p ∧
    ((∀ e ∈ AnimationUtils.keywordTable, ∀ kw ∈ e.1,
        containsStr (jsToLower p) kw = false) →
      AnimationUtils.detectAnimationType p = .general) := by
  have heq : AnimationUtils.detectAnimationType p = AnimationUtils.classifySpec p := by
    rw [AnimationUtils.detectAnimationType, AnimationUtils.classifySpec,
      AnimationUtils.keywordTable]
    simp only [AnimationUtils.firstMatch, List.any_cons, List.any_nil, Bool.or_false,
      Bool.or_assoc]
  refine ⟨heq, fun h => ?_⟩
  rw [heq, AnimationUtils.classifySpec]
  exact AnimationUtils.firstMatch_of_no_match _ _ h

/-- Witness for C4 at a concrete keyword-free prompt. -/
theorem detectAnimationType_first_match_total_witness :
    AnimationUtils.detectAnimationType "qqq" = AnimationUtils.classifySpec "qqq" ∧
    AnimationUtils.detectAnimationType "qqq" = .general :=
  ⟨(detectAnimationType_first_match_total "qqq").1,
   (detectAnimationType_first_match_total "qqq").2 (by decide)⟩

theorem motionPromptFor_rotating (p : ℚ) :
    SequenceGenerator.motionPromptFor "rotating" p = SequenceGenerator.getRotatingPrompt p := rfl

/-- C5: the claim that the rotational prompt for frame i of frameCount embeds
round(360*i/frameCount) degrees is FALSE of `SequenceGenerator`: its rotating
prompt uses the progress fraction i/(frameCount-1), so frame 1 of 4 embeds
120 degrees, not the claimed 90. -/
theorem rotational_angle_counterexample :
    containsStr (SequenceGenerator.createFramePrompt "a coin" 1 4 "rotating")
      "90 degrees" = false ∧
    containsStr (SequenceGenerator.createFramePrompt "a coin" 1 4 "rotating")
      "120 degrees" = true := by
  have hangle : jsRound (SequenceGenerator.frameProgress 1 4 / 100 * 360) = 120 := by
    rw [jsRound_eq]
    norm_num [SequenceGenerator.frameProgress]
  have hp : SequenceGenerator.createFramePrompt "a coin" 1 4 "rotating" =
      "a coin, rotating motion: 120 degrees, spinning movement, dynamic rotation, " ++
        "frame 2 of 4, consistent character and background, smooth animation sequence, " ++
        "cinematic quality" := by
    simp only [SequenceGenerator.createFramePrompt, motionPromptFor_rotating,
      SequenceGenerator.getRotatingPrompt, hangle]
    rfl
  rw [hp]
  constructor
  · decide
  · decide

/-- C5 (amended): `AnimationUtils.createFramePrompt` embeds the angle
round(360*i/frameCount) — 0, 90, 180, 270 degrees for frameCount 4 — while
`SequenceGenerator`'s rotating prompt embeds round(360*i/(frameCount-1)) —
0, 120, 240, 360 degrees for frameCount 4. -/
theorem rotational_angles_by_planner :
    (AnimationUtils.createFramePrompt "a coin" .rotating 0 4 0 =
      "a coin, rotated 0 degrees, rotation frame 1, same object and background") ∧
    (AnimationUtils.createFramePrompt "a coin" .rotating 1 4 (1/3) =
      "a coin, rotated 90 degrees, rotation frame 2, same object and background") ∧
    (AnimationUtils.createFramePrompt "a coin" .rotating 2 4 (2/3) =
      "a coin, rotated 180 degrees, rotation frame 3, same object and background") ∧
    (AnimationUtils.createFramePrompt "a coin" .rotating 3 4 1 =
      "a coin, rotated 270 degrees, rotation frame 4, same object and background") ∧
    (containsStr (SequenceGenerator.createFramePrompt "a coin" 0 4 "rotating")
      "rotating motion: 0 degrees" = true) ∧
    (containsStr (SequenceGenerator.createFramePrompt "a coin" 1 4 "rotating")
      "rotating motion: 120 degrees" = true) ∧
    (containsStr (SequenceGenerator.createFramePrompt "a coin" 2 4 "rotating")
      "rotating motion: 240 degrees" = true) ∧
    (containsStr (SequenceGenerator.createFramePrompt "a coin" 3 4 "rotating")
      "rotating motion: 360 degrees" = true) := by
  refine ⟨?_, ?_, ?_, ?_, ?_, ?_, ?_, ?_⟩ <;>
    simp only [AnimationUtils.createFramePrompt, SequenceGenerator.createFramePrompt,
      motionPromptFor_rotating, SequenceGenerator.getRotatingPrompt] <;>
    norm_num [jsRound_eq, SequenceGenerator.frameProgress] <;>
    decide

theorem generateFramePrompts_getD (b : String) (N i : ℕ) (hi : i < N) :
    (AnimationUtils.generateFramePrompts b N).getD i "" =
      AnimationUtils.createFramePrompt b (AnimationUtils.detectAnimationType b) i N
        ((i : ℚ) / ((N : ℚ) - 1)) := by
  rw [AnimationUtils.generateFramePrompts]
  rw [List.getD_eq_getElem?_getD, List.getElem?_map, List.getElem?_range hi]
  rfl

theorem generateFramePrompts_length (b : String) (N : ℕ) :
    (AnimationUtils.generateFramePrompts b N).length = N := by
  rw [AnimationUtils.generateFramePrompts, List.length_map, List.length_range]

/-- C6: the ProgressiveTransform planner has exactly three branches — frame 0
is the initial state, frame N-1 the final state, and every interior frame i
embeds the percent round(100*i/(N-1)); with frameCount 5 the interior
percents are 25, 50 and 75, strictly increasing with the index. -/
theorem transformation_three_branches (b : String) (N : ℕ)
    (hb : AnimationUtils.detectAnimationType b = .transformation) (hN : 2 ≤ N) :
    (AnimationUtils.generateFramePrompts b N).getD 0 "" =
      b ++ ", initial state, beginning of transformation" ∧
    (AnimationUtils.generateFramePrompts b N).getD (N - 1) "" =
      b ++ ", final state, transformation complete" ∧
    (∀ i, 0 < i → i < N - 1 →
      (AnimationUtils.generateFramePrompts b N).getD i "" =
        b ++ ", " ++ toString (jsRound ((100 * i : ℚ) / ((N : ℚ) - 1))) ++
          "% transformed, mid-transformation stage " ++ toString i) ∧
    jsRound ((100 * 1 : ℚ) / ((5 : ℚ) - 1)) = 25 ∧
    jsRound ((100 * 2 : ℚ) / ((5 : ℚ) - 1)) = 50 ∧
    jsRound ((100 * 3 : ℚ) / ((5 : ℚ) - 1)) = 75 := by
  refine ⟨?_, ?_, ?_, ?_, ?_, ?_⟩
  · rw [generateFramePrompts_getD b N 0 (by omega), hb]
    simp [AnimationUtils.createFramePrompt]
  · rw [generateFramePrompts_getD b N (N - 1) (by omega), hb]
    simp only [AnimationUtils.createFramePrompt]
    rw [if_neg (show ¬(N - 1 = 0) by omega)]
    simp
  · intro i h0 h1
    rw [generateFramePrompts_getD b N i (by omega), hb]
    simp only [AnimationUtils.createFramePrompt]
    rw [if_neg (by omega), if_neg (by omega)]
    have harg : ((i : ℚ) / ((N : ℚ) - 1)) * 100 = (100 * i : ℚ) / ((N : ℚ) - 1) := by
      ring
    rw [harg]
  · rw [jsRound_eq]; norm_num
  · rw [jsRound_eq]; norm_num
  · rw [jsRound_eq]; norm_num

/-- Witness for C6: a transformation-classified prompt with frameCount 5. -/
theorem transformation_three_branches_witness :
    AnimationUtils.detectAnimationType "a flower bloom" = .transformation ∧ 2 ≤ 5 ∧
    ((AnimationUtils.generateFramePrompts "a flower bloom" 5).getD 0 "" =
      "a flower bloom" ++ ", initial state, beginning of transformation" ∧
    (AnimationUtils.generateFramePrompts "a flower bloom" 5).getD (5 - 1) "" =
      "a flower bloom" ++ ", final state, transformation complete" ∧
    (∀ i, 0 < i → i < 5 - 1 →
      (AnimationUtils.generateFramePrompts "a flower bloom" 5).getD i "" =
        "a flower bloom" ++ ", " ++ toString (jsRound ((100 * i : ℚ) / ((5 : ℚ) - 1))) ++
          "% transformed, mid-transformation stage " ++ toString i) ∧
    jsRound ((100 * 1 : ℚ) / ((5 : ℚ) - 1)) = 25 ∧
    jsRound ((100 * 2 : ℚ) / ((5 : ℚ) - 1)) = 50 ∧
    jsRound ((100 * 3 : ℚ) / ((5 : ℚ) - 1)) = 75) :=
  ⟨by decide, by decide,
   transformation_three_branches "a flower bloom" 5 (by decide) (by decide)⟩

/-- C7: planning is deterministic and pure — identical inputs give identical
ordered prompt sequences, the plan has exactly frameCount entries, and each
entry is a function of (basePrompt, detected category, index, frameCount)
alone. -/
theorem generateFramePrompts_deterministic (b₁ b₂ : String) (n₁ n₂ : ℕ)
    (hb : b₁ = b₂) (hn : n₁ = n₂) :
    AnimationUtils.generateFramePrompts b₁ n₁ = AnimationUtils.generateFramePrompts b₂ n₂ ∧
    (AnimationUtils.generateFramePrompts b₁ n₁).length = n₁ ∧
    ∀ i, i < n₁ →
      (AnimationUtils.generateFramePrompts b₁ n₁).getD i "" =
        AnimationUtils.createFramePrompt b₁ (AnimationUtils.detectAnimationType b₁) i n₁
          ((i : ℚ) / ((n₁ : ℚ) - 1)) := by
  subst hb
  subst hn
  exact ⟨rfl, generateFramePrompts_length b₁ n₁, fun i hi => generateFramePrompts_getD b₁ n₁ i hi⟩

/-- Witness for C7 at concrete equal inputs. -/
theorem generateFramePrompts_deterministic_witness :
    "a dog" = "a dog" ∧ (3 : ℕ) = 3 ∧
    (AnimationUtils.generateFramePrompts "a dog" 3 = AnimationUtils.generateFramePrompts "a dog" 3 ∧
    (AnimationUtils.generateFramePrompts "a dog" 3).length = 3 ∧
    ∀ i, i < 3 →
      (AnimationUtils.generateFramePrompts "a dog" 3).getD i "" =
        AnimationUtils.createFramePrompt "a dog" (AnimationUtils.detectAnimationType "a dog") i 3
          ((i : ℚ) / ((3 : ℚ) - 1))) :=
  ⟨rfl, rfl, generateFramePrompts_deterministic "a dog" "a dog" 3 3 rfl rfl⟩

/-- C8: the claim that validation rejects EVERY request with frameCount
outside [2,20] or delay outside [100,2000] is FALSE of the code: the JS
truthiness guard `params.frames && ...` skips the range check when the
supplied value is 0, so a request with frameCount 0 (out of range) passes
validation. -/
theorem validateAnimationParams_counterexample :
    (AnimationUtils.validateAnimationParams ⟨some "a cat", some 0, some 500⟩).isValid = true ∧
    ¬(2 ≤ (0 : ℤ) ∧ (0 : ℤ) ≤ 20) := by
  constructor
  · decide
  · decide

/-- C8 (amended): validation rejects — by reporting an error, never by
clamping — every request whose supplied frameCount is nonzero and outside
[2,20], and every request whose supplied delay is nonzero and outside
[100,2000]; a supplied value of 0 is treated as absent by the truthiness
guard and slips through. -/
theorem validateAnimationParams_rejects_out_of_range
    (params : AnimationUtils.AnimationParams) :
    (∀ f : ℤ, params.frames = some f → f ≠ 0 → (f < 2 ∨ 20 < f) →
      (AnimationUtils.validateAnimationParams params).isValid = false ∧
      "Frame count must be between 2 and 20" ∈
        (AnimationUtils.validateAnimationParams params).errors) ∧
    (∀ d : ℤ, params.delay = some d → d ≠ 0 → (d < 100 ∨ 2000 < d) →
      (AnimationUtils.validateAnimationParams params).isValid = false ∧
      "Delay must be between 100ms and 2000ms" ∈
        (AnimationUtils.validateAnimationParams params).errors) := by
  constructor
  · intro f hf hf0 hrange
    have hc : (AnimationUtils.numTruthy params.frames &&
        ((params.frames.getD 0) < 2 || (params.frames.getD 0) > 20)) = true := by
      rw [hf]
      simp only [AnimationUtils.numTruthy, Option.getD_some, Bool.and_eq_true,
        Bool.or_eq_true, decide_eq_true_eq, bne_iff_ne, ne_eq]
      exact ⟨hf0, hrange⟩
    simp only [AnimationUtils.validateAnimationParams, hc, if_true]
    constructor
    · split <;> split <;> simp
    · split <;> split <;> simp
  · intro d hd hd0 hrange
    have hc : (AnimationUtils.numTruthy params.delay &&
        ((params.delay.getD 0) < 100 || (params.delay.getD 0) > 2000)) = true := by
      rw [hd]
      simp only [AnimationUtils.numTruthy, Option.getD_some, Bool.and_eq_true,
        Bool.or_eq_true, decide_eq_true_eq, bne_iff_ne, ne_eq]
      exact ⟨hd0, hrange⟩
    simp only [AnimationUtils.validateAnimationParams, hc, if_true]
    constructor
    · split <;> split <;> simp
    · split <;> split <;> simp

/-- Witness for C8 (amended) at a concrete out-of-range request. -/
theorem validateAnimationParams_rejects_witness :
    ((⟨some "a cat", some 25, some 50⟩ : AnimationUtils.AnimationParams).frames = some 25 ∧
      (25 : ℤ) ≠ 0 ∧ ((25 : ℤ) < 2 ∨ 20 < (25 : ℤ)) ∧
      (AnimationUtils.validateAnimationParams ⟨some "a cat", some 25, some 50⟩).isValid = false ∧
      "Frame count must be between 2 and 20" ∈
        (AnimationUtils.validateAnimationParams ⟨some "a cat", some 25, some 50⟩).errors) ∧
    ((⟨some "a cat", some 25, some 50⟩ : AnimationUtils.AnimationParams).delay = some 50 ∧
      (50 : ℤ) ≠ 0 ∧ ((50 : ℤ) < 100 ∨ 2000 < (50 : ℤ)) ∧
      (AnimationUtils.validateAnimationParams ⟨some "a cat", some 25, some 50⟩).isValid = false ∧
      "Delay must be between 100ms and 2000ms" ∈
        (AnimationUtils.validateAnimationParams ⟨some "a cat", some 25, some 50⟩).errors) :=
  ⟨⟨rfl, by decide, by decide,
    (validateAnimationParams_rejects_out_of_range ⟨some "a cat", some 25, some 50⟩).1
      25 rfl (by decide) (by decide)⟩,
   ⟨rfl, by decide, by decide,
    (validateAnimationParams_rejects_out_of_range ⟨some "a cat", some 25, some 50⟩).2
      50 rfl (by decide) (by decide)⟩⟩

/-- C9: the Settings Resolver is a pure bucket lookup at thresholds 3, 5 and
8 — ≤3 frames give 800ms/90, 4-5 give 600/85, 6-8 give 400/80, more than 8
give 300/75 — and both resolved values are monotonically non-increasing in
the frame count. -/
theorem getOptimalSettings_buckets_monotone :
    (∀ n, n ≤ 3 → getOptimalSettings n = ⟨800, 90⟩) ∧
    (∀ n, 4 ≤ n → n ≤ 5 → getOptimalSettings n = ⟨600, 85⟩) ∧
    (∀ n, 6 ≤ n → n ≤ 8 → getOptimalSettings n = ⟨400, 80⟩) ∧
    (∀ n, 9 ≤ n → getOptimalSettings n = ⟨300, 75⟩) ∧
    (∀ m n, m ≤ n →
      (getOptimalSettings n).delay ≤ (getOptimalSettings m).delay ∧
      (getOptimalSettings n).quality ≤ (getOptimalSettings m).quality) := by
  refine ⟨?_, ?_, ?_, ?_, ?_⟩
  · intro n h
    rw [getOptimalSettings, if_pos h]
  · intro n h1 h2
    rw [getOptimalSettings, if_neg (by omega), if_pos h2]
  · intro n h1 h2
    rw [getOptimalSettings, if_neg (by omega), if_neg (by omega), if_pos h2]
  · intro n h
    rw [getOptimalSettings, if_neg (by omega), if_neg (by omega), if_neg (by omega)]
  · intro m n h
    rw [getOptimalSettings, getOptimalSettings]
    split_ifs <;> refine ⟨?_, ?_⟩ <;> simp <;> omega

/-- Witness for C9 at concrete frame counts. -/
theorem getOptimalSettings_buckets_monotone_witness :
    (3 ≤ 3 ∧ getOptimalSettings 3 = ⟨800, 90⟩) ∧
    (2 ≤ 10 ∧ (getOptimalSettings 10).delay ≤ (getOptimalSettings 2).delay ∧
      (getOptimalSettings 10).quality ≤ (getOptimalSettings 2).quality) :=
  ⟨⟨by decide, getOptimalSettings_buckets_monotone.1 3 (by decide)⟩,
   ⟨by decide, getOptimalSettings_buckets_monotone.2.2.2.2 2 10 (by decide)⟩⟩

theorem motionPromptFor_walking (p : ℚ) :
    SequenceGenerator.motionPromptFor "walking" p =
      SequenceGenerator.getWalkingMotionPrompt p := rfl

/-- C10: in `SequenceGenerator.createFramePrompt`, the final frame of any
sequence (progress 100%) computes phase index floor((100/100)*5) = 5, which
is out of bounds for every 5-element phase table, so its lookup yields
`undefined` and the emitted prompt embeds the text "undefined"; every
earlier frame's phase index is within bounds 0..4. -/
theorem final_frame_phase_out_of_bounds (b : String) (N : ℕ) (hN : 2 ≤ N) :
    SequenceGenerator.frameProgress (N - 1) N = 100 ∧
    SequenceGenerator.motionPhaseIndex (SequenceGenerator.frameProgress (N - 1) N) 5 = 5 ∧
    (∀ l : List String, l.length = 5 →
      jsGet l (SequenceGenerator.motionPhaseIndex
        (SequenceGenerator.frameProgress (N - 1) N) 5) = none) ∧
    containsStr (SequenceGenerator.createFramePrompt b (N - 1) N "walking")
      "undefined" = true ∧
    (∀ i, i < N - 1 →
      0 ≤ SequenceGenerator.motionPhaseIndex (SequenceGenerator.frameProgress i N) 5 ∧
      SequenceGenerator.motionPhaseIndex (SequenceGenerator.frameProgress i N) 5 < 5) := by
  have hone : (N : ℚ) - 1 ≠ 0 := by
    rw [sub_ne_zero]
    intro hq
    exact (by omega : N ≠ 1) (Nat.cast_eq_one.mp hq)
  have h100 : SequenceGenerator.frameProgress (N - 1) N = 100 := by
    rw [SequenceGenerator.frameProgress, Nat.cast_sub (by omega : 1 ≤ N), Nat.cast_one,
      div_self hone, one_mul]
  have hidx : SequenceGenerator.motionPhaseIndex 100 5 = 5 := by
    rw [SequenceGenerator.motionPhaseIndex, jsFloor_eq]
    norm_num
  have hmot : SequenceGenerator.getWalkingMotionPrompt
      (SequenceGenerator.frameProgress (N - 1) N) =
      "walking motion: " ++ "undefined" ++ ", natural gait, dynamic pose" := by
    rw [SequenceGenerator.getWalkingMotionPrompt]
    rw [show SequenceGenerator.walkPhases.length = 5 from rfl, h100, hidx]
    rfl
  refine ⟨h100, by rw [h100]; exact hidx, ?_, ?_, ?_⟩
  · intro l hl
    rw [h100, hidx, jsGet, if_pos (by norm_num)]
    apply List.getElem?_eq_none
    rw [hl]
    norm_num
  · apply containsStr_of_data_decomp _ _
      ((b ++ ", " ++ "walking motion: ").data)
      ((", natural gait, dynamic pose" ++ ", frame " ++ toString (N - 1 + 1) ++ " of " ++
        toString N ++
        ", consistent character and background, smooth animation sequence, cinematic quality" :
        String).data)
    simp only [SequenceGenerator.createFramePrompt, motionPromptFor_walking, hmot,
      strData_append, List.append_assoc]
  · intro i hi
    have hN1 : (0 : ℚ) < (N : ℚ) - 1 := by
      have h1N : (1 : ℚ) < (N : ℚ) := by exact_mod_cast (by omega : 1 < N)
      linarith
    have hq0 : (0 : ℚ) ≤ (i : ℚ) / ((N : ℚ) - 1) := div_nonneg (by positivity) (le_of_lt hN1)
    have hq1 : (i : ℚ) / ((N : ℚ) - 1) < 1 := by
      rw [div_lt_one hN1]
      have hc : (i : ℚ) < ((N - 1 : ℕ) : ℚ) := by exact_mod_cast hi
      rw [Nat.cast_sub (by omega : 1 ≤ N), Nat.cast_one] at hc
      exact hc
    have harg : SequenceGenerator.frameProgress i N / 100 * ((5 : ℕ) : ℚ) =
        (i : ℚ) / ((N : ℚ) - 1) * 5 := by
      rw [SequenceGenerator.frameProgress]
      push_cast
      ring
    rw [SequenceGenerator.motionPhaseIndex, jsFloor_eq, harg]
    constructor
    · exact Int.floor_nonneg.mpr (by linarith [mul_nonneg hq0 (by norm_num : (0:ℚ) ≤ 5)])
    · rw [Int.floor_lt]
      push_cast
      first
      | done
      | nlinarith [hq0, hq1]

/-- Witness for C10 at b = "a cat", N = 5. -/
theorem final_frame_phase_out_of_bounds_witness :
    2 ≤ 5 ∧
    (SequenceGenerator.frameProgress (5 - 1) 5 = 100 ∧
    SequenceGenerator.motionPhaseIndex (SequenceGenerator.frameProgress (5 - 1) 5) 5 = 5 ∧
    (∀ l : List String, l.length = 5 →
      jsGet l (SequenceGenerator.motionPhaseIndex
        (SequenceGenerator.frameProgress (5 - 1) 5) 5) = none) ∧
    containsStr (SequenceGenerator.createFramePrompt "a cat" (5 - 1) 5 "walking")
      "undefined" = true ∧
    (∀ i, i < 5 - 1 →
      0 ≤ SequenceGenerator.motionPhaseIndex (SequenceGenerator.frameProgress i 5) 5 ∧
      SequenceGenerator.motionPhaseIndex (SequenceGenerator.frameProgress i 5) 5 < 5)) :=
  ⟨by decide, final_frame_phase_out_of_bounds "a cat" 5 (by decide)⟩
